import Mathlib

/-!
Verification of the x402-deploy translation service
(src/examples/fastapi-translation/main.py) against its design
specification.

The first part embeds the Python source faithfully; the second part
models, from the specification, the idealized core components (Proof
Verifier, Quota Ledger, Subscription Registry, Access Gateway) that the
illustrative source stubs out.
-/

namespace X402

/-- Boolean prefix test on strings (Python `str.startswith`). -/
def strStartsWith (s pre : String) : Bool :=
  pre.data.isPrefixOf s.data

/-- Request body of POST /api/translate (main.py lines 40-43). -/
structure TranslationRequest where
  text : String
  from_lang : String
  to_lang : String
deriving DecidableEq, Repr

/-- Response body of POST /api/translate (main.py lines 45-51). -/
structure TranslationResponse where
  original : String
  translated : String
  from_lang : String
  to_lang : String
  timestamp : String
  subscription_tier : String
deriving DecidableEq, Repr

/-- Mock translation function (main.py lines 54-65): a fixed dictionary
of language pairs with a fallback that upper-cases the target code. -/
def translate_text (text : String) (from_lang : String) (to_lang : String) : String :=
  if from_lang = "en" ∧ to_lang = "es" then "[ES] " ++ text
  else if from_lang = "en" ∧ to_lang = "fr" then "[FR] " ++ text
  else if from_lang = "en" ∧ to_lang = "de" then "[DE] " ++ text
  else if from_lang = "es" ∧ to_lang = "en" then "[EN] " ++ text
  else if from_lang = "fr" ∧ to_lang = "en" then "[EN] " ++ text
  else "[" ++ to_lang.toUpper ++ "] " ++ text

/-- Subscription verification (main.py lines 68-82): a missing or empty
X-Subscription-Id header yields "free"; otherwise the tier is inferred
from the id prefix, defaulting to "free". -/
def verify_user_subscription (x_subscription_id : Option String) : String :=
  match x_subscription_id with
  | none => "free"
  | some s =>
    if s = "" then "free"
    else if strStartsWith s "basic_" then "basic"
    else if strStartsWith s "pro_" then "pro"
    else "free"

/-- POST /api/translate handler (main.py lines 119-144). The wall-clock
timestamp `datetime.now().isoformat()` is passed in as a parameter. -/
def translate (request : TranslationRequest) (x_subscription_id : Option String)
    (timestamp : String) : TranslationResponse :=
  let subscription_tier := verify_user_subscription x_subscription_id
  let translated := translate_text request.text request.from_lang request.to_lang
  { original := request.text
    translated := translated
    from_lang := request.from_lang
    to_lang := request.to_lang
    timestamp := timestamp
    subscription_tier := subscription_tier }

/-- FastAPI HTTPException payload (status code and detail). -/
structure HTTPError where
  status_code : Nat
  detail : String
deriving DecidableEq, Repr

/-- Response body of POST /api/subscription/subscribe (main.py lines 201-209). -/
structure SubscribeResponse where
  success : Bool
  subscription_id : String
  tier : String
  price : String
  duration : String
  expires : String
  instructions : String
deriving DecidableEq, Repr

/-- The `prices` dictionary of the subscribe handler (main.py lines 187-190). -/
def prices (tier : String) : Option String :=
  if tier = "basic" then some "10"
  else if tier = "pro" then some "50"
  else none

/-- POST /api/subscription/subscribe handler (main.py lines 180-209):
rejects unknown tiers with HTTP 400, otherwise returns a subscription id
built from the tier name and the first 16 characters of the payment
hash. The handler touches no stored state. -/
def subscribe (tier : String) (x_payment_hash : String) : Except HTTPError SubscribeResponse :=
  match prices tier with
  | none => .error { status_code := 400, detail := "Invalid tier" }
  | some price =>
    let subscription_id := tier ++ "_" ++ x_payment_hash.take 16
    .ok { success := true
          subscription_id := subscription_id
          tier := tier
          price := "$" ++ price ++ " USDC"
          duration := "30 days"
          expires := "2026-02-28T23:59:59Z"
          instructions := "Include X-Subscription-Id: " ++ subscription_id
            ++ " header in API requests" }

/-! ## Idealized core, modelled from the specification

The spec (spec.md section 1) states that the core components below are not
implemented by the source file — the Python handlers are their stubbed
callers.  They are therefore modelled from the spec's words. -/

/-- Modelled from the spec: the static tier catalog (spec.md section 3,
"Tier Definition"; concrete values from the source's catalog endpoints,
main.py lines 95-108 and 224-244). -/
inductive Tier where
  | free
  | basic
  | pro
deriving DecidableEq, Repr

/-- Modelled from the spec: per-tier quota limit; `none` is the
"no bound" sentinel of the unlimited Pro tier. -/
def catalogLimit : Tier → Option Nat
  | .free => some 10
  | .basic => some 1000
  | .pro => none

/-- Modelled from the spec: per-tier price in USDC (free 0, basic 10,
pro 50). -/
def catalogPrice : Tier → Nat
  | .free => 0
  | .basic => 10
  | .pro => 50

/-- Modelled from the spec: per-tier billing period length in days
(30 days for every tier, main.py lines 230 and 238). -/
def periodDays : Tier → Nat := fun _ => 30

/-- Tier names as used by the request-level strings. -/
def parseTier : String → Option Tier
  | "free" => some .free
  | "basic" => some .basic
  | "pro" => some .pro
  | _ => none

/-- Modelled from the spec: outcome of a quota-ledger admission check
(spec.md section 4.3). -/
inductive AdmitResult where
  | Admitted
  | Denied (reason : String)
deriving DecidableEq, Repr

/-- Modelled from the spec: the Quota Ledger state — usage counters
keyed by (subscriber identity, billing period key), lazily created at 0
(spec.md section 3, "UsageCounter"). -/
def Ledger : Type := String × String → Nat

/-- A fresh ledger: every counter reads 0. -/
def Ledger.empty : Ledger := fun _ => 0

/-- Increment the counter at one key by `amount`. -/
def Ledger.bump (led : Ledger) (key : String × String) (amount : Nat) : Ledger :=
  fun k => if k = key then led key + amount else led k

/-- Modelled from the spec: `tryConsume(subscriberId, tier, amount=1)`
(spec.md section 4.3): read the counter for (subscriber, period); if the
tier limit is unbounded, increment and admit unconditionally; otherwise
admit and increment only when `count + amount <= limit`, else deny with
`QuotaExceeded` without mutating the count. -/
def tryConsume (led : Ledger) (sid period : String) (tier : Tier) (amount : Nat) :
    AdmitResult × Ledger :=
  let c := led (sid, period)
  match catalogLimit tier with
  | none => (.Admitted, led.bump (sid, period) amount)
  | some limit =>
    if c + amount ≤ limit then (.Admitted, led.bump (sid, period) amount)
    else (.Denied "QuotaExceeded", led)

/-- Run `n` successive unit `tryConsume` calls for one subscriber and
period, returning (admitted count, denied count, final ledger). -/
def runConsume (sid period : String) (tier : Tier) : Nat → Ledger → Nat × Nat × Ledger
  | 0, led => (0, 0, led)
  | n + 1, led =>
    let step := tryConsume led sid period tier 1
    let rest := runConsume sid period tier n step.2
    match step.1 with
    | .Admitted => (rest.1 + 1, rest.2.1, rest.2.2)
    | .Denied _ => (rest.1, rest.2.1 + 1, rest.2.2)

/-- Modelled from the spec: a payment/subscription proof (spec.md
section 3, "Proof"): subscriber identity, requested tier, amount,
currency, uniqueness token, validity window. -/
structure Proof where
  subscriber : String
  tier : String
  amount : Nat
  currency : String
  token : String
  validFrom : Nat
  validTo : Nat
deriving DecidableEq, Repr

/-- Modelled from the spec: the Proof Verifier error taxonomy
(spec.md sections 4.1 and 7). -/
inductive VError where
  | Malformed
  | Expired
  | Invalid
  | Replayed
  | PriceMismatch
deriving DecidableEq, Repr

/-- Modelled from the spec: `verify(proof)` (spec.md section 4.1).
Checks in order, first failure short-circuiting: (a) well-formedness
(non-empty subscriber, recognized tier, present uniqueness token);
(b) validity window contains `now`, else `Expired`; (c) authenticity
against the trust root (abstracted as the predicate `authentic`), else
`Invalid`; (d) uniqueness token not already in the seen-set, else
`Replayed`; (e) amount/currency match the catalog price, else
`PriceMismatch`.  On success the token is inserted into the seen-set;
on failure the seen-set is unchanged. -/
def verify (authentic : Proof → Bool) (now : Nat) (seen : List String) (p : Proof) :
    Except VError (String × Tier) × List String :=
  match parseTier p.tier with
  | none => (.error .Malformed, seen)
  | some t =>
    if p.subscriber = "" ∨ p.token = "" then (.error .Malformed, seen)
    else if ¬ (p.validFrom ≤ now ∧ now ≤ p.validTo) then (.error .Expired, seen)
    else if ¬ authentic p then (.error .Invalid, seen)
    else if p.token ∈ seen then (.error .Replayed, seen)
    else if ¬ (p.amount = catalogPrice t ∧ p.currency = "USDC") then (.error .PriceMismatch, seen)
    else (.ok (p.subscriber, t), p.token :: seen)

/-- Modelled from the spec: one Subscriber tier record (spec.md
section 3, "Subscriber"): never deleted, only superseded. -/
structure Record where
  subscriber : String
  tier : Tier
  expiry : Nat
  active : Bool
deriving DecidableEq, Repr

/-- Modelled from the spec: combined Subscription Registry and Proof
Verifier state — the verifier's replay seen-set and the registry's tier
records. -/
structure RegState where
  seen : List String
  records : List Record
deriving DecidableEq, Repr

/-- Modelled from the spec: `getTier(subscriberId)` (spec.md
section 4.2): the first active record for the subscriber, downgraded to
Free at read time when expired; Free when no active record exists. -/
def getTier (now : Nat) (records : List Record) (sid : String) : Tier :=
  match records.find? (fun r => r.subscriber == sid && r.active) with
  | none => .free
  | some r => if now < r.expiry then r.tier else .free

/-- Mark every record of the given subscriber superseded (inactive). -/
def supersede (sid : String) (records : List Record) : List Record :=
  records.map (fun r => if r.subscriber == sid then { r with active := false } else r)

/-- Modelled from the spec: `applyProof(proof)` (spec.md section 4.2):
calls the Proof Verifier; on acceptance creates a new active tier record
with expiry = now + catalog period length and marks any prior record of
that subscriber superseded; on rejection returns the error with no
mutation. -/
def applyProof (authentic : Proof → Bool) (now : Nat) (st : RegState) (p : Proof) :
    Except VError Tier × RegState :=
  match verify authentic now st.seen p with
  | (.error e, seen) => (.error e, { st with seen := seen })
  | (.ok (sid, t), seen) =>
    let newRecord : Record :=
      { subscriber := sid, tier := t, expiry := now + periodDays t, active := true }
    (.ok t, { seen := seen, records := newRecord :: supersede sid st.records })

/-- Modelled from the spec: one entry of the static pricing catalog
exposed with a denial (spec.md sections 3 and 4.4; values from
main.py lines 95-108 and 224-244). -/
structure TierDef where
  name : String
  price : Nat
  currency : String
  periodLenDays : Nat
  limit : Option Nat
deriving DecidableEq, Repr

/-- Modelled from the spec: the static tier catalog document. -/
def pricingCatalog : List TierDef :=
  [ { name := "free", price := 0, currency := "USDC", periodLenDays := 30, limit := some 10 },
    { name := "basic", price := 10, currency := "USDC", periodLenDays := 30, limit := some 1000 },
    { name := "pro", price := 50, currency := "USDC", periodLenDays := 30, limit := none } ]

/-- Modelled from the spec: the Access Gateway's response to a metered
request (spec.md section 4.4): either the Service Backend's response,
or a standardized 402-style denial carrying the reason, the current
usage, the tier limit, and the pricing catalog. -/
inductive GwResponse (β : Type) where
  | backend (resp : β)
  | denial (reason : String) (used : Nat) (limit : Option Nat) (catalog : List TierDef)
deriving DecidableEq, Repr

/-- Modelled from the spec: the Access Gateway's metered path (spec.md
section 4.4): resolve the tier (absent identity means anonymous
Free-tier access), ask the Quota Ledger for admission, forward to the
Service Backend when admitted, return the standardized denial when not.
The billing period key and the backend are passed in as parameters. -/
def gwId (sid : Option String) : String := sid.getD ""

/-- Modelled from the spec: the tier used for admission — absent
subscriber identity means anonymous Free-tier-only access, otherwise the
registry lookup (spec.md section 4.4). -/
def gwTier (now : Nat) (records : List Record) (sid : Option String) : Tier :=
  match sid with
  | none => .free
  | some s => getTier now records s

def handleMetered {α β : Type} (backend : α → β) (now : Nat) (records : List Record)
    (led : Ledger) (sid : Option String) (period : String) (payload : α) :
    GwResponse β × Ledger :=
  let id := gwId sid
  let tier := gwTier now records sid
  let step := tryConsume led id period tier 1
  match step.1 with
  | .Admitted => (.backend (backend payload), step.2)
  | .Denied reason => (.denial reason (led (id, period)) (catalogLimit tier) pricingCatalog, led)

/-! ## Theorems -/

/-- A list is a Boolean prefix of itself followed by anything. -/
theorem isPrefixOf_append_self {α : Type} [BEq α] [LawfulBEq α] (l t : List α) :
    l.isPrefixOf (l ++ t) = true := by
  induction l with
  | nil => simp [List.isPrefixOf]
  | cons a as ih => simp [List.isPrefixOf, ih]

/-- A string starts with any of its own prefixes. -/
theorem strStartsWith_append (pre t : String) : strStartsWith (pre ++ t) pre = true := by
  simp only [strStartsWith, String.data_append]
  exact isPrefixOf_append_self pre.data t.data

/-- A Boolean prefix test fails when the heads differ. -/
theorem isPrefixOf_cons_ne {α : Type} [BEq α] {a b : α} (h : (a == b) = false)
    (l1 l2 : List α) : (a :: l1).isPrefixOf (b :: l2) = false := by
  simp [List.isPrefixOf, h]

/-- A string extending "pro_" does not start with "basic_". -/
theorem pro_not_basic (t : String) : strStartsWith ("pro_" ++ t) "basic_" = false := by
  have hd : ("pro_" ++ t).data = 'p' :: ('r' :: 'o' :: '_' :: t.data) := by
    simp [String.data_append]
  simp only [strStartsWith, hd]
  exact isPrefixOf_cons_ne (by decide) _ _

/-- A string built by appending to a nonempty literal is nonempty. -/
theorem append_ne_empty_of_data (s t : String) (c : Char) (l : List Char)
    (h : s.data = c :: l) : (s ++ t) ≠ "" := by
  intro he
  have : (s ++ t).data = [] := by rw [he]
  rw [String.data_append, h] at this
  simp at this

/-- C9: for any two translate requests with identical body but
different (or absent) subscription identity headers, the original,
translated, from_lang and to_lang response fields are identical — the
translation output does not depend on the subscription tier. -/
theorem translate_output_independent_of_tier (req : TranslationRequest)
    (h1 h2 : Option String) (ts1 ts2 : String) :
    (translate req h1 ts1).original = (translate req h2 ts2).original
    ∧ (translate req h1 ts1).translated = (translate req h2 ts2).translated
    ∧ (translate req h1 ts1).from_lang = (translate req h2 ts2).from_lang
    ∧ (translate req h1 ts1).to_lang = (translate req h2 ts2).to_lang :=
  ⟨rfl, rfl, rfl, rfl⟩

/-- C5: on the unlimited Pro tier, the quota ledger's `tryConsume`
admits unconditionally — it never returns `QuotaExceeded`, whatever the
ledger state (i.e. however many requests were already recorded). -/
theorem pro_never_denied (led : Ledger) (sid period : String) (amount : Nat) :
    (tryConsume led sid period .pro amount).1 = .Admitted := rfl

/-- C4: an absent subscriber identity token resolves to the Free tier
(both in the source's `verify_user_subscription` and in the gateway
model), and `getTier` returns Free when the subscriber has no active
record or an expired one. -/
theorem default_tier_is_free :
    verify_user_subscription none = "free"
    ∧ (∀ now recs, gwTier now recs none = .free)
    ∧ (∀ now recs sid, recs.find? (fun r => r.subscriber == sid && r.active) = none →
        getTier now recs sid = .free)
    ∧ (∀ now recs sid r, recs.find? (fun r => r.subscriber == sid && r.active) = some r →
        r.expiry ≤ now → getTier now recs sid = .free) := by
  refine ⟨rfl, fun _ _ => rfl, ?_, ?_⟩
  · intro now recs sid h
    simp [getTier, h]
  · intro now recs sid r h hle
    simp [getTier, h, if_neg (not_lt.mpr hle)]

/-- Concrete instance of `default_tier_is_free`: no record at all, and
an expired Basic record, both yield Free. -/
theorem default_tier_is_free_witness :
    getTier 5 [] "alice" = Tier.free
    ∧ getTier 99 [{ subscriber := "bob", tier := Tier.basic, expiry := 50, active := true }]
        "bob" = Tier.free :=
  ⟨default_tier_is_free.2.2.1 5 [] "alice" rfl,
   default_tier_is_free.2.2.2 99 _ "bob"
     { subscriber := "bob", tier := Tier.basic, expiry := 50, active := true }
     (by decide) (by decide)⟩

/-- C10: the subscribe handler raises HTTP 400 "Invalid tier" exactly
when the requested tier is neither "basic" nor "pro"; for those two
tiers it returns success with subscription_id = tier + "_" + first 16
characters of the payment hash.  The handler is pure in the source (no
stored state is read or written), which the embedding reflects. -/
theorem subscribe_behavior (tier hash : String) :
    (subscribe tier hash = .error { status_code := 400, detail := "Invalid tier" }
      ↔ ¬(tier = "basic" ∨ tier = "pro"))
    ∧ (tier = "basic" →
        subscribe tier hash = .ok
          { success := true
            subscription_id := "basic" ++ "_" ++ hash.take 16
            tier := "basic"
            price := "$10 USDC"
            duration := "30 days"
            expires := "2026-02-28T23:59:59Z"
            instructions := "Include X-Subscription-Id: " ++ ("basic" ++ "_" ++ hash.take 16)
              ++ " header in API requests" })
    ∧ (tier = "pro" →
        subscribe tier hash = .ok
          { success := true
            subscription_id := "pro" ++ "_" ++ hash.take 16
            tier := "pro"
            price := "$50 USDC"
            duration := "30 days"
            expires := "2026-02-28T23:59:59Z"
            instructions := "Include X-Subscription-Id: " ++ ("pro" ++ "_" ++ hash.take 16)
              ++ " header in API requests" }) := by
  by_cases hb : tier = "basic"
  · subst hb
    refine ⟨?_, fun _ => rfl, fun h => absurd h (by decide)⟩
    simp [subscribe, prices]
  · by_cases hp : tier = "pro"
    · subst hp
      refine ⟨?_, fun h => absurd h (by decide), fun _ => rfl⟩
      simp [subscribe, prices]
    · refine ⟨?_, fun h => absurd h hb, fun h => absurd h hp⟩
      simp [subscribe, prices, hb, hp]

/-- Concrete instance of `subscribe_behavior`: an unknown tier is
rejected with 400 "Invalid tier"; tier "basic" yields a success
response. -/
theorem subscribe_behavior_witness :
    subscribe "gold" "abc" = .error { status_code := 400, detail := "Invalid tier" }
    ∧ subscribe "basic" "0123456789abcdefXYZ" = .ok
        { success := true
          subscription_id := "basic" ++ "_" ++ ("0123456789abcdefXYZ" : String).take 16
          tier := "basic"
          price := "$10 USDC"
          duration := "30 days"
          expires := "2026-02-28T23:59:59Z"
          instructions := "Include X-Subscription-Id: "
            ++ ("basic" ++ "_" ++ ("0123456789abcdefXYZ" : String).take 16)
            ++ " header in API requests" } :=
  ⟨(subscribe_behavior "gold" "abc").1.mpr (by decide),
   (subscribe_behavior "basic" "0123456789abcdefXYZ").2.1 rfl⟩

/-- C8: for tier "basic" or "pro", the subscription_id returned by a
successful subscribe call, presented back as the X-Subscription-Id
header, makes `verify_user_subscription` resolve to exactly that
tier (subscribe-then-lookup round trip). -/
theorem subscribe_then_lookup (tier hash : String)
    (h : tier = "basic" ∨ tier = "pro") :
    ∃ resp, subscribe tier hash = .ok resp
      ∧ verify_user_subscription (some resp.subscription_id) = tier := by
  have hb : ∀ t : String, verify_user_subscription (some ("basic_" ++ t)) = "basic" := by
    intro t
    have h0 : ("basic_" ++ t) ≠ "" := append_ne_empty_of_data "basic_" t 'b' _ rfl
    have h1 := strStartsWith_append "basic_" t
    simp [verify_user_subscription, h0, h1]
  have hp : ∀ t : String, verify_user_subscription (some ("pro_" ++ t)) = "pro" := by
    intro t
    have h0 : ("pro_" ++ t) ≠ "" := append_ne_empty_of_data "pro_" t 'p' _ rfl
    have h1 := strStartsWith_append "pro_" t
    have h2 := pro_not_basic t
    simp [verify_user_subscription, h0, h1, h2]
  rcases h with h | h <;> subst h
  · exact ⟨_, rfl, hb (hash.take 16)⟩
  · exact ⟨_, rfl, hp (hash.take 16)⟩

/-- Concrete instance of `subscribe_then_lookup` at tier "pro". -/
theorem subscribe_then_lookup_witness :
    ∃ resp, subscribe "pro" "deadbeefdeadbeefcafe" = .ok resp
      ∧ verify_user_subscription (some resp.subscription_id) = "pro" :=
  subscribe_then_lookup "pro" "deadbeefdeadbeefcafe" (Or.inr rfl)

/-- One `tryConsume` step keeps a bounded tier's counter at or below
the limit. -/
theorem tryConsume_count_le (led : Ledger) (sid period : String) (tier : Tier) (L : Nat)
    (hL : catalogLimit tier = some L) (h : led (sid, period) ≤ L) :
    (tryConsume led sid period tier 1).2 (sid, period) ≤ L := by
  simp only [tryConsume, hL]
  by_cases hc : led (sid, period) + 1 ≤ L
  · simp [hc, Ledger.bump]
  · simpa [hc] using h

/-- Any number of `tryConsume` steps keeps a bounded tier's counter at
or below the limit. -/
theorem runConsume_count_le (sid period : String) (tier : Tier) (L : Nat)
    (hL : catalogLimit tier = some L) :
    ∀ (n : Nat) (led : Ledger), led (sid, period) ≤ L →
      (runConsume sid period tier n led).2.2 (sid, period) ≤ L := by
  intro n
  induction n with
  | zero => intro led h; exact h
  | succ n ih =>
    intro led h
    have hstep := tryConsume_count_le led sid period tier L hL h
    simp only [runConsume]
    cases hr : (tryConsume led sid period tier 1).1 <;> simp only [hr] <;> exact ih _ hstep

/-- C1: a fresh Free-tier subscriber (limit 10) issuing 12 metered
requests in one billing period gets exactly 10 Admitted and 2 Denied
with QuotaExceeded, the final recorded count is 10, and for every
bounded tier the recorded count never exceeds the tier limit. -/
theorem free_tier_quota_scenario :
    ((runConsume "alice" "2026-02" .free 12 Ledger.empty).1 = 10
      ∧ (runConsume "alice" "2026-02" .free 12 Ledger.empty).2.1 = 2
      ∧ (runConsume "alice" "2026-02" .free 12 Ledger.empty).2.2 ("alice", "2026-02") = 10)
    ∧ (∀ led sid period tier amount reason,
        (tryConsume led sid period tier amount).1 = .Denied reason → reason = "QuotaExceeded")
    ∧ (∀ tier L sid period n, catalogLimit tier = some L →
        (runConsume sid period tier n Ledger.empty).2.2 (sid, period) ≤ L) := by
  refine ⟨⟨by decide, by decide, by decide⟩, ?_, ?_⟩
  · intro led sid period tier amount reason h
    unfold tryConsume at h
    cases hl : catalogLimit tier with
    | none => rw [hl] at h; simp at h
    | some L =>
      rw [hl] at h
      dsimp only at h
      split_ifs at h with hc
      all_goals simp at h
      exact h.symm
  · intro tier L sid period n hL
    exact runConsume_count_le sid period tier L hL n Ledger.empty (Nat.zero_le L)

/-- Concrete instance of `free_tier_quota_scenario`: after 11 attempts
on the Free tier the recorded count is still at most 10. -/
theorem free_tier_quota_scenario_witness :
    (runConsume "u" "p" Tier.free 11 Ledger.empty).2.2 ("u", "p") ≤ 10 :=
  free_tier_quota_scenario.2.2 Tier.free 10 "u" "p" 11 rfl

/-- Inversion: a successful `verify` means every check passed, the
returned identity is the proof's subscriber, and the token was added to
the seen-set. -/
theorem verify_ok_inv (auth : Proof → Bool) (now : Nat) (seen : List String) (p : Proof)
    (sid : String) (t : Tier) (seen' : List String)
    (h : verify auth now seen p = (.ok (sid, t), seen')) :
    parseTier p.tier = some t ∧ sid = p.subscriber
    ∧ ¬(p.subscriber = "" ∨ p.token = "")
    ∧ (p.validFrom ≤ now ∧ now ≤ p.validTo)
    ∧ auth p = true
    ∧ p.token ∉ seen
    ∧ (p.amount = catalogPrice t ∧ p.currency = "USDC")
    ∧ seen' = p.token :: seen := by
  unfold verify at h
  cases hp : parseTier p.tier with
  | none => rw [hp] at h; simp at h
  | some t' =>
    rw [hp] at h
    dsimp only at h
    split_ifs at h with h1 h2 h3 h4 h5 <;> simp at h
    obtain ⟨⟨hsid, ht⟩, hseen⟩ := h
    subst ht
    exact ⟨rfl, hsid.symm, h1, h2, h3, h4, h5, hseen.symm⟩

/-- A token already in the seen-set can never be accepted again. -/
theorem verify_seen_ne_ok (auth : Proof → Bool) (now : Nat) (seen : List String) (q : Proof)
    (hmem : q.token ∈ seen) (sid : String) (t : Tier) (seen' : List String) :
    verify auth now seen q ≠ (.ok (sid, t), seen') := fun h =>
  (verify_ok_inv auth now seen q sid t seen' h).2.2.2.2.2.1 hmem

/-- C2: a proof accepted once is rejected with `Replayed` when
submitted again (with no further state change), and, in general, a
uniqueness token already in the seen-set can never be accepted again —
it is consumed at most once over the system's lifetime. -/
theorem proof_replay_exactly_once (auth : Proof → Bool) (now : Nat) (st st' : RegState)
    (p : Proof) (t : Tier) (h : applyProof auth now st p = (.ok t, st')) :
    applyProof auth now st' p = (.error .Replayed, st')
    ∧ (∀ (now2 : Nat) (st2 : RegState) (q : Proof), q.token ∈ st2.seen →
        ∀ t2 st2', applyProof auth now2 st2 q ≠ (.ok t2, st2')) := by
  have hgen : ∀ (now2 : Nat) (st2 : RegState) (q : Proof), q.token ∈ st2.seen →
      ∀ t2 st2', applyProof auth now2 st2 q ≠ (.ok t2, st2') := by
    intro now2 st2 q hmem t2 st2' hap
    unfold applyProof at hap
    rcases hv : verify auth now2 st2.seen q with ⟨r, s⟩
    rw [hv] at hap
    cases r with
    | error e => simp at hap
    | ok x =>
      rcases x with ⟨sid2, tt⟩
      exact verify_seen_ne_ok auth now2 st2.seen q hmem sid2 tt s hv
  refine ⟨?_, hgen⟩
  unfold applyProof at h
  rcases hv : verify auth now st.seen p with ⟨r, s⟩
  rw [hv] at h
  cases r with
  | error e => simp at h
  | ok x =>
    rcases x with ⟨sid1, t1⟩
    have hinv := verify_ok_inv auth now st.seen p sid1 t1 s hv
    dsimp only at h
    simp only [Prod.mk.injEq, Except.ok.injEq] at h
    obtain ⟨ht1, hst'⟩ := h
    subst ht1
    subst hst'
    have hmem : p.token ∈ s := by
      rw [hinv.2.2.2.2.2.2.2]
      exact List.mem_cons_self _ _
    have hrep : verify auth now s p = (.error .Replayed, s) := by
      unfold verify
      rw [hinv.1]
      dsimp only
      rw [if_neg hinv.2.2.1, if_neg (not_not.mpr hinv.2.2.2.1),
        if_neg (not_not.mpr hinv.2.2.2.2.1), if_pos hmem]
    unfold applyProof
    dsimp only
    rw [hrep]

/-- Concrete instance of `proof_replay_exactly_once`: a valid Basic
proof accepted on a fresh state is rejected with `Replayed` the second
time. -/
theorem proof_replay_exactly_once_witness :
    applyProof (fun _ => true) 100
      (applyProof (fun _ => true) 100 { seen := [], records := [] }
        { subscriber := "alice", tier := "basic", amount := 10, currency := "USDC",
          token := "tok1", validFrom := 50, validTo := 200 }).2
      { subscriber := "alice", tier := "basic", amount := 10, currency := "USDC",
        token := "tok1", validFrom := 50, validTo := 200 }
    = (.error .Replayed,
        (applyProof (fun _ => true) 100 { seen := [], records := [] }
          { subscriber := "alice", tier := "basic", amount := 10, currency := "USDC",
            token := "tok1", validFrom := 50, validTo := 200 }).2) :=
  (proof_replay_exactly_once (fun _ => true) 100 { seen := [], records := [] } _
    { subscriber := "alice", tier := "basic", amount := 10, currency := "USDC",
      token := "tok1", validFrom := 50, validTo := 200 } Tier.basic rfl).1

/-- C3: `applyProof` runs the verifier's checks in order with
short-circuiting — malformed fields, validity window (`Expired`),
authenticity (`Invalid`), token freshness (`Replayed`), then
amount/currency against the catalog price (`PriceMismatch`) — and on
every rejection returns that error with the state unchanged (no
Subscriber mutation). -/
theorem verifier_check_order (auth : Proof → Bool) (now : Nat) (st : RegState) (p : Proof) :
    (parseTier p.tier = none → applyProof auth now st p = (.error .Malformed, st))
    ∧ ((p.subscriber = "" ∨ p.token = "") →
        applyProof auth now st p = (.error .Malformed, st))
    ∧ (∀ t, parseTier p.tier = some t → ¬(p.subscriber = "" ∨ p.token = "") →
        ¬(p.validFrom ≤ now ∧ now ≤ p.validTo) →
        applyProof auth now st p = (.error .Expired, st))
    ∧ (∀ t, parseTier p.tier = some t → ¬(p.subscriber = "" ∨ p.token = "") →
        (p.validFrom ≤ now ∧ now ≤ p.validTo) → auth p = false →
        applyProof auth now st p = (.error .Invalid, st))
    ∧ (∀ t, parseTier p.tier = some t → ¬(p.subscriber = "" ∨ p.token = "") →
        (p.validFrom ≤ now ∧ now ≤ p.validTo) → auth p = true → p.token ∈ st.seen →
        applyProof auth now st p = (.error .Replayed, st))
    ∧ (∀ t, parseTier p.tier = some t → ¬(p.subscriber = "" ∨ p.token = "") →
        (p.validFrom ≤ now ∧ now ≤ p.validTo) → auth p = true → p.token ∉ st.seen →
        ¬(p.amount = catalogPrice t ∧ p.currency = "USDC") →
        applyProof auth now st p = (.error .PriceMismatch, st)) := by
  refine ⟨?_, ?_, ?_, ?_, ?_, ?_⟩
  · intro hpt
    simp [applyProof, verify, hpt]
  · intro hwf
    cases hpt : parseTier p.tier with
    | none => simp [applyProof, verify, hpt]
    | some t => simp [applyProof, verify, hpt, hwf]
  · intro t hpt hwf hwin
    simp [applyProof, verify, hpt, hwf, hwin]
  · intro t hpt hwf hwin hauth
    simp [applyProof, verify, hpt, hwf, hwin, hauth]
  · intro t hpt hwf hwin hauth hmem
    simp [applyProof, verify, hpt, hwf, hwin, hauth, hmem]
  · intro t hpt hwf hwin hauth hfresh hpr
    simp [applyProof, verify, hpt, hwf, hwin, hauth, hfresh, hpr]

/-- Concrete instance of `verifier_check_order`: a proof submitted
after its validity window is rejected as `Expired` with the state
untouched. -/
theorem verifier_check_order_witness :
    applyProof (fun _ => true) 300 { seen := [], records := [] }
      { subscriber := "alice", tier := "basic", amount := 10, currency := "USDC",
        token := "tok1", validFrom := 50, validTo := 200 }
    = (.error .Expired, { seen := [], records := [] }) :=
  (verifier_check_order (fun _ => true) 300 { seen := [], records := [] }
    { subscriber := "alice", tier := "basic", amount := 10, currency := "USDC",
      token := "tok1", validFrom := 50, validTo := 200 }).2.2.1
    Tier.basic rfl (by decide) (by decide)

/-- Supersession marks every record of the given subscriber inactive. -/
theorem supersede_inactive (sid : String) (records : List Record) :
    ∀ r ∈ supersede sid records, r.subscriber = sid → r.active = false := by
  intro r hr hsub
  simp only [supersede, List.mem_map] at hr
  obtain ⟨r0, hr0, heq⟩ := hr
  by_cases hb : r0.subscriber == sid
  · rw [if_pos hb] at heq
    rw [← heq]
  · rw [if_neg hb] at heq
    subst heq
    exact absurd hsub (by simpa using hb)

/-- C7: on every accepted proof, `applyProof` prepends a new active
tier record whose expiry is the current time plus the catalog period
length (30 days for Basic and Pro), and every prior record of that
subscriber is marked superseded. -/
theorem applyProof_new_record (auth : Proof → Bool) (now : Nat) (st : RegState)
    (p : Proof) (t : Tier) (st' : RegState)
    (h : applyProof auth now st p = (.ok t, st')) :
    st'.records
      = { subscriber := p.subscriber, tier := t, expiry := now + periodDays t, active := true }
        :: supersede p.subscriber st.records
    ∧ periodDays Tier.basic = 30 ∧ periodDays Tier.pro = 30
    ∧ (∀ r ∈ supersede p.subscriber st.records,
        r.subscriber = p.subscriber → r.active = false) := by
  unfold applyProof at h
  rcases hv : verify auth now st.seen p with ⟨r, s⟩
  rw [hv] at h
  cases r with
  | error e => simp at h
  | ok x =>
    rcases x with ⟨sid1, t1⟩
    have hinv := verify_ok_inv auth now st.seen p sid1 t1 s hv
    dsimp only at h
    simp only [Prod.mk.injEq, Except.ok.injEq] at h
    obtain ⟨ht1, hst'⟩ := h
    subst ht1
    subst hst'
    have hsid : sid1 = p.subscriber := hinv.2.1
    subst hsid
    exact ⟨rfl, rfl, rfl, supersede_inactive p.subscriber st.records⟩

/-- Concrete instance of `applyProof_new_record`: accepting a Basic
proof at time 100 records expiry 130 and supersedes the prior Pro
record. -/
theorem applyProof_new_record_witness :
    (applyProof (fun _ => true) 100
      { seen := [],
        records := [{ subscriber := "alice", tier := Tier.pro, expiry := 120, active := true }] }
      { subscriber := "alice", tier := "basic", amount := 10, currency := "USDC",
        token := "tok1", validFrom := 50, validTo := 200 }).2.records
    = { subscriber := "alice", tier := Tier.basic, expiry := 130, active := true }
      :: supersede "alice"
          [{ subscriber := "alice", tier := Tier.pro, expiry := 120, active := true }] :=
  (applyProof_new_record (fun _ => true) 100
    { seen := [],
      records := [{ subscriber := "alice", tier := Tier.pro, expiry := 120, active := true }] }
    { subscriber := "alice", tier := "basic", amount := 10, currency := "USDC",
      token := "tok1", validFrom := 50, validTo := 200 } Tier.basic _ rfl).1

/-- C6: when the quota check denies a metered request, the gateway
returns the standardized 402-style denial carrying the denial reason,
the subscriber's current usage, the tier limit, and the pricing
catalog; when it admits, the Service Backend's response is returned. -/
theorem gateway_responses {α β : Type} (backend : α → β) (now : Nat) (recs : List Record)
    (led : Ledger) (sid : Option String) (period : String) (payload : α) :
    (∀ reason, (tryConsume led (gwId sid) period (gwTier now recs sid) 1).1 = .Denied reason →
      handleMetered backend now recs led sid period payload
        = (.denial reason (led (gwId sid, period))
            (catalogLimit (gwTier now recs sid)) pricingCatalog, led))
    ∧ ((tryConsume led (gwId sid) period (gwTier now recs sid) 1).1 = .Admitted →
      handleMetered backend now recs led sid period payload
        = (.backend (backend payload),
            (tryConsume led (gwId sid) period (gwTier now recs sid) 1).2)) := by
  constructor
  · intro reason hd
    simp [handleMetered, hd]
  · intro ha
    simp [handleMetered, ha]

/-- Concrete instance of `gateway_responses`: a Free-tier caller whose
counter already reads 10 is denied with reason, usage, limit, and the
catalog. -/
theorem gateway_responses_witness :
    handleMetered (fun n : Nat => n + 1) 0 [] (fun _ => 10) (some "bob") "2026-02" 7
      = (.denial "QuotaExceeded" 10 (some 10) pricingCatalog, fun _ => 10) :=
  (gateway_responses (fun n : Nat => n + 1) 0 [] (fun _ => 10) (some "bob") "2026-02" 7).1
    "QuotaExceeded" rfl

end X402
